import Mathlib

/-!
Shallow embedding of the gateway protocol engine of `src/procedure.ts`
(the PL/SQL web gateway middleware): call-plan resolution (path alias,
variable-argument and fixed-argument modes), the catalog argument-type
lookup, the fixed invocation envelope, and the control flow of
`invokeProcedure` (upload, validation, execution, row-count check,
parse, send, LOB cleanup).

HTTP argument objects are embedded as ordered association lists (the
iteration order of `for (const key in argObj)`); JavaScript string
case-folding is embedded for the ASCII range, which is the range the
Oracle catalog produces.  Database effects are embedded as an oracle
record describing the outcome of each `execute`/`send` call.
-/

/-- An HTTP argument value: a single string or an ordered list of strings
(`string | Array<string>` in `argObjType`). -/
inductive ArgValue where
  | str : String → ArgValue
  | arr : List String → ArgValue
deriving DecidableEq, Repr

/-- Bind direction (`oracledb.BIND_IN` / `BIND_OUT` / `BIND_INOUT`). -/
inductive BindDir where
  | bindIn | bindOut | bindInOut
deriving DecidableEq, Repr

/-- Declared bind type (`oracledb.STRING` / `NUMBER` / `BLOB`). -/
inductive BindTy where
  | string | number | blob
deriving DecidableEq, Repr

/-- A bind value: scalar string, array of strings, number, or the BLOB
handle. -/
inductive BindVal where
  | str : String → BindVal
  | strArr : List String → BindVal
  | num : Nat → BindVal
  | blobVal : BindVal
deriving DecidableEq, Repr

/-- One bind descriptor (`{dir, type, val?, maxSize?, maxArraySize?}`). -/
structure BindSpec where
  dir : BindDir
  ty : BindTy
  val : Option BindVal := none
  maxSize : Option Nat := none
  maxArraySize : Option Nat := none
deriving DecidableEq, Repr

/-- A call plan: the invocation text and its bindings
(`{ sql: string; bind: any }` as returned by `getProcedure`).  The bind
object is embedded as an ordered association list. -/
structure CallPlan where
  sql : String
  bind : List (String × BindSpec)
deriving DecidableEq, Repr

/-- The error taxonomy: `RequestError`, `ProcedureError` (which carries the
CGI mapping, invocation text and bindings), and the untagged JavaScript
`Error`. -/
inductive GatewayErr where
  | request : String → GatewayErr
  | procedure : String → List (String × String) → String → List (String × BindSpec) → GatewayErr
  | plain : String → GatewayErr
deriving DecidableEq, Repr

/-- Outcome of the catalog query performed by `getArguments`: the execute
call throws, returns a malformed result (outBinds missing or not arrays),
or returns the parallel `names`/`types` arrays. -/
inductive CatalogResult where
  | fail : String → CatalogResult
  | malformed : CatalogResult
  | ok : List String → List String → CatalogResult
deriving DecidableEq, Repr

/-- The `pathAlias` configuration entry (`{alias, procedure}`; `alias` is a
reserved word in Lean, hence `aliasName`). -/
structure PathAliasCfg where
  aliasName : String
  procedure : String
deriving DecidableEq, Repr

/-- The middleware options consulted by `procedure.ts`
(`oracleExpressMiddleware$options`): `pathAlias`, `requestValidation`,
`doctable`. -/
structure MiddlewareOptions where
  pathAlias : Option PathAliasCfg := none
  requestValidation : Option String := none
  doctable : Option String := none
deriving DecidableEq, Repr

/-- ASCII lower-casing of one character, as `String.prototype.toLowerCase`
acts on the ASCII range (code points 65–90 map to 97–122). -/
def lowerChar (c : Char) : Char :=
  if 65 ≤ c.toNat ∧ c.toNat ≤ 90 then Char.ofNat (c.toNat + 32) else c

/-- ASCII embedding of JavaScript `toLowerCase()`. -/
def jsToLowerCase (s : String) : String :=
  String.mk (s.data.map lowerChar)

/-- The loop of `getArguments` that folds the catalog rows into a map:
`argTypes[names[i].toLowerCase()] = types[i]`, later assignments winning. -/
def buildArgTypes (entries : List (String × String)) : String → Option String :=
  entries.foldl
    (fun m nt => fun k => if k = jsToLowerCase nt.1 then some nt.2 else m k)
    (fun _ => none)

/-- The anonymous-block text of the catalog query in `getArguments`
(`sql.join('\n')`). -/
def argumentsSQL : String :=
  String.intercalate "\n" [
    "DECLARE",
    "\tschemaName\t\tVARCHAR2(32767);",
    "\tpart1\t\t\tVARCHAR2(32767);",
    "\tpart2\t\t\tVARCHAR2(32767);",
    "\tdblink\t\t\tVARCHAR2(32767);",
    "\tobjectType\t\tNUMBER;",
    "\tobjectID\t\tNUMBER;",
    "BEGIN",
    "\tdbms_utility.name_resolve(name=>UPPER(:name), context=>1, schema=>schemaName, part1=>part1, part2=>part2, dblink=>dblink, part1_type=>objectType, object_number=>objectID);",
    "\tIF (part1 IS NOT NULL) THEN",
    "\t\tSELECT argument_name, data_type BULK COLLECT INTO :names, :types FROM all_arguments WHERE owner = schemaName AND package_name = part1 AND object_name = part2 AND argument_name IS NOT NULL ORDER BY overload, sequence;",
    "\tELSE",
    "\t\tSELECT argument_name, data_type BULK COLLECT INTO :names, :types FROM all_arguments WHERE owner = schemaName AND package_name IS NULL AND object_name = part2 AND argument_name IS NOT NULL ORDER BY overload, sequence;",
    "\tEND IF;",
    "END;"
  ]

/-- `getArguments`: run the catalog query; a raised error becomes a
`RequestError` with the query text, a malformed result becomes the
`RequestError` `'getArguments: invalid results'`, and a well-formed result is
folded into the lower-cased name → type map. -/
def getArguments (catalog : CatalogResult) : Except GatewayErr (String → Option String) :=
  match catalog with
  | .fail stack =>
      .error (.request ("Error when retrieving arguments\n" ++ argumentsSQL ++ "\n" ++ stack))
  | .malformed => .error (.request "getArguments: invalid results")
  | .ok names types => .ok (buildArgTypes (names.zip types))

/-- One turn of the `for (const key in argObj)` loop of `getVarArgsPara`:
a string value pushes one (name, value) pair, an array value pushes one
pair per element. -/
def varArgsStep (acc : List String × List String) (kv : String × ArgValue) :
    List String × List String :=
  match kv.2 with
  | .str s => (acc.1 ++ [kv.1], acc.2 ++ [s])
  | .arr items =>
      items.foldl (fun acc2 item => (acc2.1 ++ [kv.1], acc2.2 ++ [item])) acc

/-- `getVarArgsPara`: strip the leading character from the procedure name,
push each (name, value) pair — one per element of a multi-valued argument —
into the parallel `names`/`values` arrays, and bind them as `:argnames` and
`:argvalues`. -/
def getVarArgsPara (procedure : String) (argObj : List (String × ArgValue)) : CallPlan :=
  let nv : List String × List String := argObj.foldl varArgsStep ([], [])
  { sql := procedure.drop 1 ++ "(:argnames, :argvalues);",
    bind := [
      ("argnames", { dir := .bindIn, ty := .string, val := some (.strArr nv.1) }),
      ("argvalues", { dir := .bindIn, ty := .string, val := some (.strArr nv.2) })
    ] }

/-- Whether an argument value is `Array.isArray`. -/
def isArrayVal : ArgValue → Bool
  | .str _ => false
  | .arr _ => true

/-- The value part of one fixed-argument binding: an array when the HTTP
value is an array or the declared type is `'PL/SQL TABLE'` (a single string
becoming a one-element array), a scalar string otherwise; the `val` field
is left unset when the value is neither (unreachable for well-typed
argument objects). -/
def fixBindVal (argTypes : String → Option String) (key : String) (value : ArgValue) :
    Option BindVal :=
  if isArrayVal value || (argTypes key == some "PL/SQL TABLE") then
    some (.strArr (match value with | .str s => [s] | .arr l => l))
  else
    match value with
    | .str s => some (.str s)
    | .arr _ => none

/-- One turn of the `for (const key in argObj)` loop of `getFixArgsPara`:
append `key=>:p_key` (comma-separated after the first argument) to the
invocation text and the `p_`-prefixed binding to the bind object. -/
def fixArgsStep (argTypes : String → Option String)
    (acc : String × Nat × List (String × BindSpec)) (kv : String × ArgValue) :
    String × Nat × List (String × BindSpec) :=
  let parameterName := "p_" ++ kv.1
  let sql1 := if acc.2.1 > 0 then acc.1 ++ "," else acc.1
  (sql1 ++ kv.1 ++ "=>:" ++ parameterName, acc.2.1 + 1,
   acc.2.2 ++ [(parameterName,
     { dir := .bindIn, ty := .string, val := fixBindVal argTypes kv.1 kv.2 })])

/-- `getFixArgsPara`: build `procedure(key=>:p_key, …);` over the argument
object in order, one `p_`-prefixed binding per argument, each valued by
`fixBindVal`. -/
def getFixArgsPara (procedure : String) (argObj : List (String × ArgValue))
    (argTypes : String → Option String) : CallPlan :=
  let acc := argObj.foldl (fixArgsStep argTypes) (procedure ++ "(", 0, [])
  { sql := acc.1 ++ ");", bind := acc.2.2 }

/-- The dispatch of `getProcedure` after the path-alias test has failed:
the `'!'` sentinel selects variable-argument mode, otherwise the catalog is
consulted and fixed-argument mode is used. -/
def getProcedureNoAlias (procedure : String) (argObj : List (String × ArgValue))
    (catalog : CatalogResult) : Except GatewayErr CallPlan :=
  if procedure.take 1 == "!" then
    .ok (getVarArgsPara procedure argObj)
  else
    match getArguments catalog with
    | .error e => .error e
    | .ok argTypes => .ok (getFixArgsPara procedure argObj argTypes)

/-- `getProcedure`: path alias first (`options.pathAlias.alias ===
procedure` routes to the configured target with the original name bound as
`:p_path`), then the `'!'` variable-argument rule, then fixed arguments. -/
def getProcedure (procedure : String) (argObj : List (String × ArgValue))
    (options : MiddlewareOptions) (catalog : CatalogResult) : Except GatewayErr CallPlan :=
  match options.pathAlias with
  | some pa =>
      if pa.aliasName == procedure then
        .ok { sql := pa.procedure ++ "(p_path=>:p_path);",
              bind := [("p_path",
                { dir := .bindIn, ty := .string, val := some (.str procedure) })] }
      else getProcedureNoAlias procedure argObj catalog
  | none => getProcedureNoAlias procedure argObj catalog

/-- `HTBUF_LEN` of `invokeProcedure`. -/
def HTBUF_LEN : Nat := 63

/-- `MAX_IROWS` of `invokeProcedure`. -/
def MAX_IROWS : Nat := 100000

/-- `outBinds` of the procedure execution: the page lines, the reported row
count (absent on the access-denied stub result, whose object has no `irows`
property), the file-download out-parameters, and whether `fileBlob` came
back non-null. -/
structure ProcResult where
  lines : List String
  irows : Option Nat
  fileType : Option String
  fileSize : Option Nat
  fileBlob : Bool
deriving DecidableEq, Repr

/-- The stub result substituted when the validation function denied the
request (`validOperation !== true`): only the fixed denial line, no `irows`
property, null file fields. -/
def stubResult : ProcResult :=
  { lines := ["No access to this."], irows := none,
    fileType := none, fileSize := none, fileBlob := false }

/-- The structured page handed to `send`: header section, the `Server`
header, the body text, and the file-download triple. -/
structure PageComponents where
  headers : List String
  server : Option String
  body : String
  fileType : Option String
  fileSize : Option Nat
  fileBlob : Option Unit
deriving DecidableEq, Repr

/-- Split a character list at newline characters. -/
def splitLinesAux : List Char → List Char → List String
  | [], acc => [String.mk acc.reverse]
  | c :: cs, acc =>
      if c = '\n' then String.mk acc.reverse :: splitLinesAux cs []
      else splitLinesAux cs (c :: acc)

/-- Split a string into its lines at newline characters. -/
def splitLines (s : String) : List String := splitLinesAux s.data []

/-- Whether a character list contains the `': '` separator of a header
directive. -/
def hasDirectiveSep : List Char → Bool
  | ':' :: ' ' :: _ => true
  | _ :: cs => hasDirectiveSep cs
  | [] => false

/-- Whether a line is header-directive shaped (`Name: value`). -/
def isDirectiveLine (l : String) : Bool := hasDirectiveSep l.data

/-- Modelled from the spec: the output parser `parse` (src/page.ts is not
under src/).  A leading run of header-directive lines (`Name: value`
syntax) forms the head section; the first non-directive line starts the
body, which is kept verbatim; file fields are attached later by the
caller. -/
def parseSpec (content : String) : PageComponents :=
  let ls := splitLines content
  { headers := ls.takeWhile isDirectiveLine,
    server := none,
    body := String.intercalate "\n" (ls.dropWhile isDirectiveLine),
    fileType := none, fileSize := none, fileBlob := none }

/-- Observable trace of one `invokeProcedure` call: whether `uploadFiles`
was called, whether the main invocation statement was executed, whether the
BLOB handle was created (`createLob`) and closed (`fileBlob.close()`), and
the page handed to `send` when one was sent. -/
structure InvokeTrace where
  uploadCalled : Bool
  mainExecuted : Bool
  lobCreated : Bool
  lobClosed : Bool
  response : Option PageComponents
deriving DecidableEq, Repr

/-- The outcomes of the database and response effects of one request.
`uploadResult` is modelled from the spec (`uploadFiles` lives in
src/fileUpload.ts, which is not under src/): the upload either succeeds or
fails; `sendResult` likewise stands for the parse/send stage of
src/page.ts raising or succeeding.  `validationResult` is the outcome of
the validation `execute` (`outBinds.ret`, `none` when `outBinds`/`ret` is
missing), `execResult` the outcome of the main `execute`. -/
structure DbOracle where
  uploadResult : Except String Unit
  validationResult : Except String (Option Nat)
  execResult : Except String ProcResult
  catalog : CatalogResult
  sendResult : Except String Unit
deriving Repr

/-- The fixed invocation-envelope bindings built in step 4 of
`invokeProcedure` (the `bind` object). -/
def envelopeBind (cgiObj : List (String × String)) : List (String × BindSpec) :=
  [("cgicount", { dir := .bindIn, ty := .number, val := some (.num cgiObj.length) }),
   ("cginames", { dir := .bindIn, ty := .string, val := some (.strArr (cgiObj.map Prod.fst)) }),
   ("cgivalues", { dir := .bindIn, ty := .string, val := some (.strArr (cgiObj.map Prod.snd)) }),
   ("htbuflen", { dir := .bindIn, ty := .number, val := some (.num HTBUF_LEN) }),
   ("fileType", { dir := .bindOut, ty := .string }),
   ("fileSize", { dir := .bindOut, ty := .number }),
   ("fileBlob", { dir := .bindInOut, ty := .blob, val := some .blobVal }),
   ("lines", { dir := .bindOut, ty := .string, maxSize := some (HTBUF_LEN * 2),
               maxArraySize := some MAX_IROWS }),
   ("irows", { dir := .bindInOut, ty := .number, val := some (.num MAX_IROWS) })]

/-- `getProcedureSQL`: the fixed stateless-session wrapper around the call
plan's invocation text. -/
def getProcedureSQL (procedure : String) : String :=
  "\nDECLARE\n\tfileType VARCHAR2(32767);\n\tfileSize INTEGER;\n\tfileBlob BLOB;\nBEGIN\n" ++
  "\t-- Ensure a stateless environment by resetting package state (dbms_session.reset_package)\n" ++
  "\tdbms_session.modify_package_state(dbms_session.reinitialize);\n\n" ++
  "\t-- initialize the cgi\n\towa.init_cgi_env(:cgicount, :cginames, :cgivalues);\n\n" ++
  "\t-- initialize the htp package\n\thtp.init;\n\n" ++
  "\t-- set the HTBUF_LEN\n\thtp.HTBUF_LEN := :htbuflen;\n\n" ++
  "\t-- execute the procedure\n\tBEGIN\n\t\t" ++ procedure ++ "\n" ++
  "\tEXCEPTION WHEN OTHERS THEN\n" ++
  "\t\traise_application_error(-20000, 'Error executing " ++ procedure ++
  "'||CHR(10)||SUBSTR(dbms_utility.format_error_stack()||CHR(10)||dbms_utility.format_error_backtrace(), 1, 2000));\n" ++
  "\tEND;\n\n" ++
  "\t-- Check for file download\n\tIF (wpg_docload.is_file_download()) THEN\n" ++
  "\t\twpg_docload.get_download_file(fileType);\n\t\tIF (filetype = 'B') THEN\n" ++
  "\t\t\twpg_docload.get_download_blob(:fileBlob);\n" ++
  "\t\t\tfileSize := dbms_lob.getlength(:fileBlob);\n" ++
  "\t\t\t--dbms_lob.copy(dest_lob=>:fileBlob, src_lob=>fileBlob, amount=>fileSize);\n" ++
  "\t\tEND IF;\n\tEND IF;\n\t:fileType := fileType;\n\t:fileSize := fileSize;\n\n" ++
  "\t-- retrieve the page\n\towa.get_page(thepage=>:lines, irows=>:irows);\nEND;\n"

/-- The fixed message of the untagged `Error` thrown when the validation
block itself fails. -/
def validationErrorMessage : String :=
  "Error during the validation of the procedure (RequestValidationFunction)"

/-- The guard of the upload call:
`typeof options.doctable === 'string' && options.doctable.length > 0`. -/
def doctableConfigured (options : MiddlewareOptions) : Bool :=
  match options.doctable with
  | some t => t.length > 0
  | none => false

/-- `options.requestValidation || false`: an absent or empty (falsy) string
disables validation. -/
def validationSetting (options : MiddlewareOptions) : Option String :=
  match options.requestValidation with
  | some f => if f == "" then none else some f
  | none => none

/-- `requestValidRes.outBinds && requestValidRes.outBinds.ret ?
requestValidRes.outBinds.ret === 1 : false`. -/
def computeValid (ret : Option Nat) : Bool :=
  match ret with
  | some r => if r != 0 then r == 1 else false
  | none => false

/-- JavaScript rendering of `result.outBinds.irows` inside a template
literal. -/
def irowsText : Option Nat → String
  | some n => toString n
  | none => "undefined"

/-- Steps 5–8 of `invokeProcedure`: the row-count ceiling check, joining
the page lines, parsing, attaching server/file fields, sending, and closing
the BLOB handle (which the source reaches only when nothing before it
threw). -/
def processResult (cgiObj : List (String × String)) (para : CallPlan)
    (uploadCalled mainExecuted : Bool) (sendResult : Except String Unit)
    (result : ProcResult) : Except GatewayErr Unit × InvokeTrace :=
  let overflow : Bool :=
    match result.irows with
    | some n => decide (MAX_IROWS < n)
    | none => false
  if overflow then
    (.error (.procedure ("Error when retrieving rows. irows=\"" ++ irowsText result.irows ++ "\"")
        cgiObj para.sql para.bind),
     { uploadCalled, mainExecuted, lobCreated := true, lobClosed := false, response := none })
  else
    let pageContent := String.join result.lines
    let pc0 := parseSpec pageContent
    let pc : PageComponents :=
      { pc0 with server := List.lookup "SERVER_SOFTWARE" cgiObj,
                 fileType := result.fileType, fileSize := result.fileSize,
                 fileBlob := if result.fileBlob then some () else none }
    match sendResult with
    | .error m =>
        (.error (.plain m),
         { uploadCalled, mainExecuted, lobCreated := true, lobClosed := false, response := none })
    | .ok _ =>
        (.ok (),
         { uploadCalled, mainExecuted, lobCreated := true, lobClosed := true,
           response := some pc })

/-- Step 4 of `invokeProcedure`: execute the wrapped statement when the
operation was validated (an execution error becoming a `ProcedureError`
that carries the CGI mapping, plan text and plan bindings), or substitute
the access-denied stub result otherwise. -/
def executeStage (cgiObj : List (String × String)) (para : CallPlan)
    (uploadCalled : Bool) (oracle : DbOracle) (validOperation : Bool) :
    Except GatewayErr Unit × InvokeTrace :=
  if validOperation then
    match oracle.execResult with
    | .error m =>
        (.error (.procedure
            ("Error when executing procedure\n" ++ getProcedureSQL para.sql ++ "\n" ++ m)
            cgiObj para.sql para.bind),
         { uploadCalled, mainExecuted := true, lobCreated := true, lobClosed := false,
           response := none })
    | .ok r => processResult cgiObj para uploadCalled true oracle.sendResult r
  else
    processResult cgiObj para uploadCalled false oracle.sendResult stubResult

/-- `invokeProcedure`: upload (the source calls `uploadFiles` without
awaiting it, so the value of `oracle.uploadResult` never influences the
request), plan resolution, the validation hook (whose own failure throws
the untagged `Error` with `validationErrorMessage`), then the execution and
result-processing stages.  The BLOB handle is created after validation and
before execution. -/
def invokeProcedure (name : String) (argObj : List (String × ArgValue))
    (cgiObj : List (String × String)) (_filesToUpload : Nat)
    (options : MiddlewareOptions) (oracle : DbOracle) :
    Except GatewayErr Unit × InvokeTrace :=
  let uploadCalled := doctableConfigured options
  match getProcedure name argObj options oracle.catalog with
  | .error e =>
      (.error e,
       { uploadCalled, mainExecuted := false, lobCreated := false, lobClosed := false,
         response := none })
  | .ok para =>
      match validationSetting options with
      | some _ =>
          match oracle.validationResult with
          | .error _ =>
              (.error (.plain validationErrorMessage),
               { uploadCalled, mainExecuted := false, lobCreated := false,
                 lobClosed := false, response := none })
          | .ok ret => executeStage cgiObj para uploadCalled oracle (computeValid ret)
      | none => executeStage cgiObj para uploadCalled oracle true

/-- Whether an invocation outcome is a success. -/
def isOkResult : Except GatewayErr Unit → Bool
  | .ok _ => true
  | .error _ => false

/-- Whether an invocation outcome is a `RequestError`. -/
def isRequestErrorResult : Except GatewayErr Unit → Bool
  | .error (.request _) => true
  | _ => false

/-- The names contributed by one argument in variable-argument mode. -/
def varNamesOf (kv : String × ArgValue) : List String :=
  match kv.2 with
  | .str _ => [kv.1]
  | .arr items => items.map (fun _ => kv.1)

/-- The values contributed by one argument in variable-argument mode. -/
def varValuesOf (kv : String × ArgValue) : List String :=
  match kv.2 with
  | .str s => [s]
  | .arr items => items

/-- The binding entry contributed by one argument in fixed-argument mode. -/
def fixEntry (argTypes : String → Option String) (kv : String × ArgValue) :
    String × BindSpec :=
  ("p_" ++ kv.1, { dir := .bindIn, ty := .string, val := fixBindVal argTypes kv.1 kv.2 })

/-- The oracle of the C4 witness at the ceiling boundary. -/
def c4OracleAt (n : Nat) : DbOracle :=
  { uploadResult := .ok (), validationResult := .ok none,
    execResult := .ok { lines := ["x"], irows := some n, fileType := none,
                        fileSize := none, fileBlob := false },
    catalog := .ok [] [], sendResult := .ok () }

/-- The oracle of the C5 witness: validation reports 0, the database is
otherwise healthy. -/
def c5Oracle : DbOracle :=
  { uploadResult := .ok (), validationResult := .ok (some 0),
    execResult := .ok { lines := ["real page"], irows := some 1, fileType := none,
                        fileSize := none, fileBlob := true },
    catalog := .ok [] [], sendResult := .ok () }

/-- The oracle of the C6 counterexample: the validation query raises. -/
def c6Oracle : DbOracle :=
  { uploadResult := .ok (), validationResult := .error "ORA-00942: table or view does not exist",
    execResult := .ok stubResult, catalog := .ok [] [], sendResult := .ok () }

/-- The oracle of the C7 theorem: the upload's database work fails,
everything else succeeds. -/
def c7Oracle : DbOracle :=
  { uploadResult := .error "ORA-00001: unique constraint violated",
    validationResult := .ok none,
    execResult := .ok { lines := ["x"], irows := some 0, fileType := none,
                        fileSize := none, fileBlob := false },
    catalog := .ok [] [], sendResult := .ok () }

/-- The oracle of the C9 counterexample: the main execution raises. -/
def c9Oracle : DbOracle :=
  { uploadResult := .ok (), validationResult := .ok none,
    execResult := .error "ORA-06550: line 1, column 7",
    catalog := .ok [] [], sendResult := .ok () }

/-! ### Helper lemmas -/

theorem varArgsStep_eq (acc : List String × List String) (kv : String × ArgValue) :
    varArgsStep acc kv = (acc.1 ++ varNamesOf kv, acc.2 ++ varValuesOf kv) := by
  obtain ⟨k, v⟩ := kv
  cases v with
  | str s => simp [varArgsStep, varNamesOf, varValuesOf]
  | arr items =>
      simp only [varArgsStep, varNamesOf, varValuesOf]
      induction items generalizing acc with
      | nil => simp
      | cons i is ih => simp [ih]

theorem varArgs_foldl (argObj : List (String × ArgValue)) (acc : List String × List String) :
    argObj.foldl varArgsStep acc =
      (acc.1 ++ argObj.flatMap varNamesOf, acc.2 ++ argObj.flatMap varValuesOf) := by
  induction argObj generalizing acc with
  | nil => simp
  | cons kv rest ih => simp [varArgsStep_eq, ih]

theorem getVarArgsPara_eq (procedure : String) (argObj : List (String × ArgValue)) :
    getVarArgsPara procedure argObj =
      { sql := procedure.drop 1 ++ "(:argnames, :argvalues);",
        bind := [
          ("argnames", { dir := .bindIn, ty := .string,
                         val := some (.strArr (argObj.flatMap varNamesOf)) }),
          ("argvalues", { dir := .bindIn, ty := .string,
                          val := some (.strArr (argObj.flatMap varValuesOf)) })] } := by
  simp [getVarArgsPara, varArgs_foldl]

theorem fixArgs_foldl_bind (argTypes : String → Option String)
    (argObj : List (String × ArgValue)) (acc : String × Nat × List (String × BindSpec)) :
    (argObj.foldl (fixArgsStep argTypes) acc).2.2 = acc.2.2 ++ argObj.map (fixEntry argTypes) := by
  induction argObj generalizing acc with
  | nil => simp
  | cons kv rest ih => simp [fixArgsStep, ih, fixEntry]

theorem getFixArgsPara_bind (procedure : String) (argObj : List (String × ArgValue))
    (argTypes : String → Option String) :
    (getFixArgsPara procedure argObj argTypes).bind = argObj.map (fixEntry argTypes) := by
  simp [getFixArgsPara, fixArgs_foldl_bind]

theorem p_append_inj {a b : String} (h : "p_" ++ a = "p_" ++ b) : a = b := by
  have hd := congrArg String.data h
  rw [String.data_append, String.data_append] at hd
  exact String.ext (List.append_cancel_left hd)

theorem lookup_fixEntry (argTypes : String → Option String)
    (argObj : List (String × ArgValue)) (k : String) (v : ArgValue)
    (hmem : (k, v) ∈ argObj) (hnd : (argObj.map Prod.fst).Nodup) :
    List.lookup ("p_" ++ k) (argObj.map (fixEntry argTypes)) =
      some { dir := .bindIn, ty := .string, val := fixBindVal argTypes k v } := by
  induction argObj with
  | nil => cases hmem
  | cons kv rest ih =>
      simp only [List.map_cons, List.nodup_cons] at hnd
      rcases List.mem_cons.mp hmem with heq | htail
      · subst heq
        simp [List.lookup, fixEntry]
      · have hk : k ≠ kv.1 := by
          intro hkk
          exact hnd.1 (hkk ▸ List.mem_map_of_mem Prod.fst htail)
        have hbeq : (("p_" ++ k) == ("p_" ++ kv.1)) = false := by
          simp only [beq_eq_false_iff_ne, ne_eq]
          intro hpp
          exact hk (p_append_inj hpp)
        simp [List.lookup, fixEntry, hbeq, ih htail hnd.2]

theorem p_prefix_head (k : String) : ("p_" ++ k).data.head? = some 'p' := by
  rw [String.data_append]
  rfl

theorem p_prefix_ne_of_head {e : String} (k : String) (h : e.data.head? ≠ some 'p') :
    "p_" ++ k ≠ e := by
  intro heq
  exact h (heq ▸ p_prefix_head k)

theorem lowerChar_idem (c : Char) : lowerChar (lowerChar c) = lowerChar c := by
  unfold lowerChar
  by_cases h : 65 ≤ c.toNat ∧ c.toNat ≤ 90
  · rw [if_pos h]
    obtain ⟨h1, h2⟩ := h
    interval_cases hc : c.toNat <;> decide
  · rw [if_neg h, if_neg h]

theorem jsToLowerCase_idem (s : String) : jsToLowerCase (jsToLowerCase s) = jsToLowerCase s := by
  simp only [jsToLowerCase, List.map_map]
  congr 1
  exact List.map_congr_left (fun c _ => lowerChar_idem c)

/-- Every key of the argument-type map is already lower-cased: a defined
lookup forces the key to be a `jsToLowerCase` fixed point. -/
theorem buildArgTypes_key_lower (entries : List (String × String)) (k : String)
    (h : buildArgTypes entries k ≠ none) : jsToLowerCase k = k := by
  unfold buildArgTypes at h
  induction entries using List.reverseRecOn with
  | nil => simp at h
  | append_singleton rest nt ih =>
      rw [List.foldl_append] at h
      simp only [List.foldl_cons, List.foldl_nil] at h
      by_cases hk : k = jsToLowerCase nt.1
      · subst hk
        exact jsToLowerCase_idem nt.1
      · rw [if_neg hk] at h
        exact ih h

/-- The last catalog row for a (lower-cased) name wins. -/
theorem buildArgTypes_last_wins (entries : List (String × String)) (n t : String) :
    buildArgTypes (entries ++ [(n, t)]) (jsToLowerCase n) = some t := by
  unfold buildArgTypes
  rw [List.foldl_append]
  simp

/-! ### Claim theorems -/

/-- C1: in fixed-argument mode (`getFixArgsPara`), an argument whose HTTP
value is a single string and whose declared type is not the indexed-table
type is bound as a scalar string; an argument whose HTTP value is
multi-valued is bound as an array of strings preserving the input order;
and a single-valued argument whose declared type is the indexed-table type
becomes a one-element array. -/
theorem c1_fixedArgs_scalar_and_array_binding (procedure : String)
    (argObj : List (String × ArgValue)) (argTypes : String → Option String)
    (k : String) (v : ArgValue) (hmem : (k, v) ∈ argObj)
    (hnd : (argObj.map Prod.fst).Nodup) :
    (∀ s, v = .str s → argTypes k ≠ some "PL/SQL TABLE" →
      List.lookup ("p_" ++ k) (getFixArgsPara procedure argObj argTypes).bind =
        some { dir := .bindIn, ty := .string, val := some (.str s) }) ∧
    (∀ l, v = .arr l →
      List.lookup ("p_" ++ k) (getFixArgsPara procedure argObj argTypes).bind =
        some { dir := .bindIn, ty := .string, val := some (.strArr l) }) ∧
    (∀ s, v = .str s → argTypes k = some "PL/SQL TABLE" →
      List.lookup ("p_" ++ k) (getFixArgsPara procedure argObj argTypes).bind =
        some { dir := .bindIn, ty := .string, val := some (.strArr [s]) }) := by
  rw [getFixArgsPara_bind]
  have hbase := lookup_fixEntry argTypes argObj k v hmem hnd
  refine ⟨?_, ?_, ?_⟩
  · intro s hv hty
    subst hv
    rw [hbase]
    have hne : (argTypes k == some "PL/SQL TABLE") = false := by
      simpa [beq_eq_false_iff_ne] using hty
    simp [fixBindVal, isArrayVal, hne]
  · intro l hv
    subst hv
    rw [hbase]
    simp [fixBindVal, isArrayVal]
  · intro s hv hty
    subst hv
    rw [hbase]
    simp [fixBindVal, isArrayVal, hty]

theorem c1_witness :
    List.lookup "p_a" (getFixArgsPara "myproc" [("a", ArgValue.str "1")] (fun _ => none)).bind =
      some { dir := .bindIn, ty := .string, val := some (.str "1") } :=
  (c1_fixedArgs_scalar_and_array_binding "myproc" [("a", ArgValue.str "1")] (fun _ => none)
      "a" (ArgValue.str "1") (by simp) (by simp)).1 "1" rfl (by simp)

/-- C2: when the incoming name equals the configured path alias, the plan
invokes the configured target procedure with the single `p_path` parameter
bound to the original alias string, for every catalog state and argument
object — so the rule also wins over the `'!'` rule (the alias may itself
start with `'!'`) and over the fixed-argument default. -/
theorem c2_path_alias_precedence (a p : String) (argObj : List (String × ArgValue))
    (options : MiddlewareOptions) (catalog : CatalogResult)
    (h : options.pathAlias = some { aliasName := a, procedure := p }) :
    getProcedure a argObj options catalog =
      .ok { sql := p ++ "(p_path=>:p_path);",
            bind := [("p_path", { dir := .bindIn, ty := .string, val := some (.str a) })] } := by
  simp [getProcedure, h]

theorem c2_witness :
    getProcedure "!x" [("q", ArgValue.str "v")]
        { pathAlias := some { aliasName := "!x", procedure := "target" } }
        (.fail "catalog down") =
      .ok { sql := "target(p_path=>:p_path);",
            bind := [("p_path", { dir := .bindIn, ty := .string, val := some (.str "!x") })] } :=
  c2_path_alias_precedence "!x" "target" [("q", ArgValue.str "v")]
    { pathAlias := some { aliasName := "!x", procedure := "target" } } (.fail "catalog down") rfl

/-- C3: in variable-argument mode (name starting with `'!'` and not equal
to a configured alias), the plan targets the name with the marker stripped
and binds exactly the two parallel arrays of argument names and values,
one (name, value) pair per single value and one pair per element of a
multi-valued argument, in key order then occurrence order; the result does
not depend on the catalog (no catalog lookup happens). -/
theorem c3_varargs_flattening (name : String) (argObj : List (String × ArgValue))
    (options : MiddlewareOptions) (catalog : CatalogResult)
    (halias : ∀ pa, options.pathAlias = some pa → pa.aliasName ≠ name)
    (hbang : name.take 1 = "!") :
    getProcedure name argObj options catalog =
      .ok { sql := name.drop 1 ++ "(:argnames, :argvalues);",
            bind := [
              ("argnames", { dir := .bindIn, ty := .string,
                             val := some (.strArr (argObj.flatMap varNamesOf)) }),
              ("argvalues", { dir := .bindIn, ty := .string,
                              val := some (.strArr (argObj.flatMap varValuesOf)) })] } := by
  unfold getProcedure
  cases hpa : options.pathAlias with
  | none => simp [getProcedureNoAlias, hbang, getVarArgsPara_eq]
  | some pa =>
      have hne : (pa.aliasName == name) = false := by
        simpa [beq_eq_false_iff_ne] using halias pa hpa
      simp [hne, getProcedureNoAlias, hbang, getVarArgsPara_eq]

theorem c3_witness :
    getProcedure "!f" [("a", ArgValue.str "1"), ("b", ArgValue.arr ["2", "3"])] {}
        (.fail "catalog down") =
      .ok { sql := "f(:argnames, :argvalues);",
            bind := [
              ("argnames", { dir := .bindIn, ty := .string,
                             val := some (.strArr ["a", "b", "b"]) }),
              ("argvalues", { dir := .bindIn, ty := .string,
                              val := some (.strArr ["1", "2", "3"]) })] } := by
  have h := c3_varargs_flattening "!f" [("a", ArgValue.str "1"), ("b", ArgValue.arr ["2", "3"])]
    {} (.fail "catalog down") (by simp) (by decide)
  simpa [varNamesOf, varValuesOf] using h

theorem envelope_keys (cgiObj : List (String × String)) :
    (envelopeBind cgiObj).map Prod.fst =
      ["cgicount", "cginames", "cgivalues", "htbuflen", "fileType", "fileSize",
       "fileBlob", "lines", "irows"] := rfl

theorem p_key_not_envelope (x : String) (cgiObj : List (String × String)) :
    ("p_" ++ x) ∉ (envelopeBind cgiObj).map Prod.fst := by
  rw [envelope_keys]
  intro hmem
  simp only [List.mem_cons, List.not_mem_nil, or_false] at hmem
  rcases hmem with h | h | h | h | h | h | h | h | h
  all_goals exact p_prefix_ne_of_head x (by decide) h

theorem pPath_not_envelope (cgiObj : List (String × String)) :
    "p_path" ∉ (envelopeBind cgiObj).map Prod.fst := by
  rw [envelope_keys]; decide

theorem argnames_not_envelope (cgiObj : List (String × String)) :
    "argnames" ∉ (envelopeBind cgiObj).map Prod.fst := by
  rw [envelope_keys]; decide

theorem argvalues_not_envelope (cgiObj : List (String × String)) :
    "argvalues" ∉ (envelopeBind cgiObj).map Prod.fst := by
  rw [envelope_keys]; decide

/-- C8: the bindings of every plan produced by `getProcedure` (any of the
three resolution modes) use key names disjoint from the nine fixed
invocation-envelope keys, so `Object.assign(bind, para.bind)` never
overwrites an envelope binding; and fixed-argument placeholder names are
exactly the argument names with the fixed `p_` prefix. -/
theorem c8_plan_keys_disjoint_from_envelope (name : String)
    (argObj : List (String × ArgValue)) (options : MiddlewareOptions)
    (catalog : CatalogResult) (plan : CallPlan) (cgiObj : List (String × String))
    (h : getProcedure name argObj options catalog = .ok plan) :
    (∀ k ∈ plan.bind.map Prod.fst, k ∉ (envelopeBind cgiObj).map Prod.fst) ∧
    (∀ argTypes, (getFixArgsPara name argObj argTypes).bind.map Prod.fst =
        argObj.map (fun kv => "p_" ++ kv.1)) := by
  constructor
  · have hvar : getVarArgsPara name argObj = plan →
        ∀ k ∈ plan.bind.map Prod.fst, k ∉ (envelopeBind cgiObj).map Prod.fst := by
      intro h' k hk
      rw [← h', getVarArgsPara_eq] at hk
      simp only [List.map_cons, List.map_nil, List.mem_cons, List.not_mem_nil, or_false] at hk
      rcases hk with hk | hk <;> subst hk
      · exact argnames_not_envelope cgiObj
      · exact argvalues_not_envelope cgiObj
    have hfix : ∀ argTypes, getFixArgsPara name argObj argTypes = plan →
        ∀ k ∈ plan.bind.map Prod.fst, k ∉ (envelopeBind cgiObj).map Prod.fst := by
      intro argTypes h' k hk
      rw [← h', getFixArgsPara_bind] at hk
      simp only [List.map_map, List.mem_map, Function.comp, fixEntry] at hk
      obtain ⟨kv, _, hkv⟩ := hk
      rw [← hkv]
      exact p_key_not_envelope kv.1 cgiObj
    intro k hk
    unfold getProcedure getProcedureNoAlias at h
    split at h
    · split at h
      · simp only [Except.ok.injEq] at h
        rw [← h] at hk
        simp only [List.map_cons, List.map_nil, List.mem_cons, List.not_mem_nil,
          or_false] at hk
        subst hk
        exact pPath_not_envelope cgiObj
      · split at h
        · simp only [Except.ok.injEq] at h
          exact hvar h k hk
        · split at h
          · simp at h
          · simp only [Except.ok.injEq] at h
            exact hfix _ h k hk
    · split at h
      · simp only [Except.ok.injEq] at h
        exact hvar h k hk
      · split at h
        · simp at h
        · simp only [Except.ok.injEq] at h
          exact hfix _ h k hk
  · intro argTypes
    simp [getFixArgsPara_bind, fixEntry]

theorem c8_witness :
    (getFixArgsPara "!x" [("q", ArgValue.str "v")] (fun _ => none)).bind.map Prod.fst =
      ["p_q"] := by
  have h := c8_plan_keys_disjoint_from_envelope "!x" [("q", ArgValue.str "v")]
    { pathAlias := some { aliasName := "!x", procedure := "target" } } (.fail "catalog down")
    { sql := "target(p_path=>:p_path);",
      bind := [("p_path", { dir := .bindIn, ty := .string, val := some (.str "!x") })] }
    [("SERVER_SOFTWARE", "web")] rfl
  simpa using h.2 (fun _ => none)

/-- C10: `getArguments` keys its type map by the lower-cased catalog name
(last-declared type winning on repeats) while `getFixArgsPara` looks the
type up under the HTTP argument name exactly as sent; hence a type lookup
can only hit for keys that are `toLowerCase` fixed points, and a
single-valued argument whose HTTP name is not entirely lower-case is bound
as a scalar string even when its catalog-declared type is `'PL/SQL TABLE'`. -/
theorem c10_lowercase_key_mismatch :
    (∀ (names types : List String) (k : String),
        buildArgTypes (names.zip types) k ≠ none → jsToLowerCase k = k) ∧
    (∀ (entries : List (String × String)) (n t : String),
        buildArgTypes (entries ++ [(n, t)]) (jsToLowerCase n) = some t) ∧
    (∀ (names types : List String) (procedure : String)
        (argObj : List (String × ArgValue)) (k s : String),
        jsToLowerCase k ≠ k → (k, ArgValue.str s) ∈ argObj →
        (argObj.map Prod.fst).Nodup →
        List.lookup ("p_" ++ k)
            (getFixArgsPara procedure argObj (buildArgTypes (names.zip types))).bind =
          some { dir := .bindIn, ty := .string, val := some (.str s) }) := by
  refine ⟨fun names types k h => buildArgTypes_key_lower _ k h,
          fun es n t => buildArgTypes_last_wins es n t, ?_⟩
  intro names types procedure argObj k s hk hmem hnd
  have hnone : buildArgTypes (names.zip types) k = none := by
    by_contra h
    exact hk (buildArgTypes_key_lower _ k h)
  rw [getFixArgsPara_bind,
      lookup_fixEntry (buildArgTypes (names.zip types)) argObj k (ArgValue.str s) hmem hnd]
  simp [fixBindVal, isArrayVal, hnone]

/-- In every run of the execution and result-processing stages, the BLOB
handle is closed exactly when the stage finishes without throwing. -/
theorem executeStage_lobClosed (cgiObj : List (String × String)) (para : CallPlan)
    (uploadCalled : Bool) (oracle : DbOracle) (validOperation : Bool) :
    (executeStage cgiObj para uploadCalled oracle validOperation).2.lobClosed =
      isOkResult (executeStage cgiObj para uploadCalled oracle validOperation).1 := by
  unfold executeStage processResult
  cases validOperation with
  | false =>
      simp only [Bool.false_eq_true, if_false]
      split
      · rfl
      · cases oracle.sendResult <;> rfl
  | true =>
      simp only [if_true]
      cases oracle.execResult with
      | error m => rfl
      | ok r =>
          simp only []
          split
          · rfl
          · cases oracle.sendResult <;> rfl

/-- C4 (envelope and boundary behavior of the row-count ceiling): the
ceiling is 100000 and is the value bound to `irows` in every invocation
envelope; a reported row count equal to the ceiling lets processing
continue to parsing and the request succeeds, while a count strictly above
it aborts the request with the fatal `ProcedureError` carrying the plan's
text and bindings. -/
theorem c4_rowcount_ceiling (name : String) (argObj : List (String × ArgValue))
    (cgiObj : List (String × String)) (files : Nat) (options : MiddlewareOptions)
    (oracle : DbOracle) (plan : CallPlan) (r : ProcResult)
    (hval : options.requestValidation = none)
    (hproc : getProcedure name argObj options oracle.catalog = .ok plan)
    (hexec : oracle.execResult = .ok r)
    (hsend : oracle.sendResult = .ok ()) :
    MAX_IROWS = 100000 ∧
    List.lookup "irows" (envelopeBind cgiObj) =
      some { dir := .bindInOut, ty := .number, val := some (.num 100000) } ∧
    (r.irows = some 100000 →
      (invokeProcedure name argObj cgiObj files options oracle).1 = .ok ()) ∧
    (∀ n, r.irows = some n → 100000 < n →
      (invokeProcedure name argObj cgiObj files options oracle).1 =
        .error (.procedure ("Error when retrieving rows. irows=\"" ++ toString n ++ "\"")
          cgiObj plan.sql plan.bind)) := by
  refine ⟨rfl, rfl, ?_, ?_⟩
  · intro h100
    simp [invokeProcedure, hproc, validationSetting, hval, executeStage, hexec,
      processResult, h100, MAX_IROWS, hsend]
  · intro n hn hlt
    simp [invokeProcedure, hproc, validationSetting, hval, executeStage, hexec,
      processResult, hn, MAX_IROWS, decide_eq_true hlt, irowsText]

theorem c4_witness :
    (invokeProcedure "proc" [] [] 0 {} (c4OracleAt 100000)).1 = .ok () ∧
    (invokeProcedure "proc" [] [] 0 {} (c4OracleAt 100001)).1 =
      .error (.procedure "Error when retrieving rows. irows=\"100001\"" [] "proc();" []) := by
  constructor
  · exact (c4_rowcount_ceiling "proc" [] [] 0 {} (c4OracleAt 100000)
      { sql := "proc();", bind := [] }
      { lines := ["x"], irows := some 100000, fileType := none, fileSize := none,
        fileBlob := false } rfl rfl rfl rfl).2.2.1 rfl
  · have h := (c4_rowcount_ceiling "proc" [] [] 0 {} (c4OracleAt 100001)
      { sql := "proc();", bind := [] }
      { lines := ["x"], irows := some 100001, fileType := none, fileSize := none,
        fileBlob := false } rfl rfl rfl rfl).2.2.2 100001 rfl (by decide)
    simpa using h

/-- C5: when the configured validation function resolves to false (the
validation query reports 0), the request never executes the invocation
statement, yet completes as a normal (non-error) response whose body is the
fixed access-denied text with no file payload attached. -/
theorem c5_soft_deny (name : String) (argObj : List (String × ArgValue))
    (cgiObj : List (String × String)) (files : Nat) (options : MiddlewareOptions)
    (oracle : DbOracle) (plan : CallPlan) (f : String)
    (hval : options.requestValidation = some f) (hf : f ≠ "")
    (hret : oracle.validationResult = .ok (some 0))
    (hproc : getProcedure name argObj options oracle.catalog = .ok plan)
    (hsend : oracle.sendResult = .ok ()) :
    (invokeProcedure name argObj cgiObj files options oracle).1 = .ok () ∧
    (invokeProcedure name argObj cgiObj files options oracle).2.mainExecuted = false ∧
    ∃ pc, (invokeProcedure name argObj cgiObj files options oracle).2.response = some pc ∧
      pc.body = "No access to this." ∧ pc.fileBlob = none := by
  have hfb : (f == "") = false := by
    simpa [beq_eq_false_iff_ne] using hf
  simp only [invokeProcedure, hproc, validationSetting, hval, hfb, Bool.false_eq_true,
    if_false, hret, computeValid, executeStage, processResult, stubResult, hsend,
    MAX_IROWS]
  refine ⟨rfl, rfl, ?_⟩
  refine ⟨_, rfl, ?_, ?_⟩ <;> rfl

theorem c5_witness :
    (invokeProcedure "proc" [] [] 0 { requestValidation := some "my_check" } c5Oracle).1 =
        .ok () ∧
    (invokeProcedure "proc" [] [] 0 { requestValidation := some "my_check" }
        c5Oracle).2.mainExecuted = false := by
  have h := c5_soft_deny "proc" [] [] 0 { requestValidation := some "my_check" } c5Oracle
    { sql := "proc();", bind := [] } "my_check" rfl (by decide) rfl rfl rfl
  exact ⟨h.1, h.2.1⟩

/-- C6 (amended): a failure of the validation hook itself surfaces as the
untagged `Error` with the fixed validation message — not as a
`RequestError` and not as a `ProcedureError`. -/
theorem c6_validation_failure_untagged (name : String) (argObj : List (String × ArgValue))
    (cgiObj : List (String × String)) (files : Nat) (options : MiddlewareOptions)
    (oracle : DbOracle) (plan : CallPlan) (f e : String)
    (hval : options.requestValidation = some f) (hf : f ≠ "")
    (hvr : oracle.validationResult = .error e)
    (hproc : getProcedure name argObj options oracle.catalog = .ok plan) :
    (invokeProcedure name argObj cgiObj files options oracle).1 =
      .error (.plain validationErrorMessage) := by
  have hfb : (f == "") = false := by
    simpa [beq_eq_false_iff_ne] using hf
  simp [invokeProcedure, hproc, validationSetting, hval, hfb, hvr]

theorem c6_counterexample :
    (invokeProcedure "proc" [] [] 0 { requestValidation := some "chk" } c6Oracle).1 =
      .error (.plain validationErrorMessage) ∧
    isRequestErrorResult
      (invokeProcedure "proc" [] [] 0 { requestValidation := some "chk" } c6Oracle).1 = false := by
  exact ⟨rfl, rfl⟩

theorem c6_witness :
    (invokeProcedure "other_proc" [] [] 0 { requestValidation := some "vfn" } c6Oracle).1 =
      .error (.plain validationErrorMessage) :=
  c6_validation_failure_untagged "other_proc" [] [] 0 { requestValidation := some "vfn" }
    c6Oracle { sql := "other_proc();", bind := [] } "vfn"
    "ORA-00942: table or view does not exist" rfl (by decide) rfl rfl

/-- C7 (evaluating the code at the failing input): with an upload table
configured and the upload failing, the request still completes successfully
— the source never awaits `uploadFiles`, so its failure cannot bubble up as
a `ProcedureError`; with no upload table configured, the upload is skipped
without error. -/
theorem c7_upload_failure_not_fatal :
    (invokeProcedure "proc" [] [] 1 { doctable := some "DOC_TABLE" } c7Oracle).1 = .ok () ∧
    (invokeProcedure "proc" [] [] 1 { doctable := some "DOC_TABLE" } c7Oracle).2.uploadCalled
      = true ∧
    (invokeProcedure "proc" [] [] 1 {} c7Oracle).2.uploadCalled = false ∧
    (invokeProcedure "proc" [] [] 1 {} c7Oracle).1 = .ok () := by
  exact ⟨rfl, rfl, rfl, rfl⟩

/-- C9 (amended): the BLOB handle is closed exactly on the success path;
every error exit — before or after its creation — leaves it unclosed. -/
theorem c9_lob_closed_iff_success (name : String) (argObj : List (String × ArgValue))
    (cgiObj : List (String × String)) (files : Nat) (options : MiddlewareOptions)
    (oracle : DbOracle) :
    (invokeProcedure name argObj cgiObj files options oracle).2.lobClosed =
      isOkResult (invokeProcedure name argObj cgiObj files options oracle).1 := by
  unfold invokeProcedure
  cases hg : getProcedure name argObj options oracle.catalog with
  | error e => rfl
  | ok para =>
      simp only []
      cases validationSetting options with
      | none => exact executeStage_lobClosed cgiObj para _ oracle true
      | some f =>
          simp only []
          cases oracle.validationResult with
          | error e => rfl
          | ok ret => exact executeStage_lobClosed cgiObj para _ oracle (computeValid ret)

theorem c9_counterexample :
    (invokeProcedure "proc" [] [] 0 {} c9Oracle).2.lobCreated = true ∧
    (invokeProcedure "proc" [] [] 0 {} c9Oracle).2.lobClosed = false ∧
    isOkResult (invokeProcedure "proc" [] [] 0 {} c9Oracle).1 = false := by
  exact ⟨rfl, rfl, rfl⟩

theorem c10_witness :
    List.lookup "p_A"
        (getFixArgsPara "proc" [("A", ArgValue.str "x")]
          (buildArgTypes (["A"].zip ["PL/SQL TABLE"]))).bind =
      some { dir := .bindIn, ty := .string, val := some (.str "x") } :=
  c10_lowercase_key_mismatch.2.2 ["A"] ["PL/SQL TABLE"] "proc" [("A", ArgValue.str "x")]
    "A" "x" (by decide) (by simp) (by simp)
